import Mathlib

/-!
Verification of `self_stats/munger/content_analysis.py`.

The Python functions are shallowly embedded as total Lean functions over
`List Char` / `String`.  Third-party library behaviour (spacy, tldextract,
pandas) that the module calls into is modelled explicitly; each such model
carries a doc comment saying what it models.
-/

/-- Boolean test that `p` is an initial run of `l`
(the embedding of the Python `str.startswith` check on character lists). -/
def leadsWith : List Char → List Char → Bool
  | [], _ => true
  | _ :: _, [] => false
  | a :: as, b :: bs => a == b && leadsWith as bs

/-- Boolean test that `suf` is a final run of `l`
(the embedding of the Python `str.endswith` check). -/
def trailsWith (l suf : List Char) : Bool :=
  leadsWith suf.reverse l.reverse

/-- Embedding of Python `s.startswith(p)` for strings. -/
def pyStartsWith (s p : String) : Bool :=
  leadsWith p.data s.data

/-- Embedding of Python `s.endswith(p)` for strings. -/
def pyEndsWith (s p : String) : Bool :=
  trailsWith s.data p.data

/-- Helper for `s.replace(old, new, 1)`: scan left to right and replace the
first occurrence of `old` (assumed nonempty in the recursion) by `new`. -/
def replaceFirstAux (old new : List Char) : List Char → List Char
  | [] => []
  | c :: cs =>
    if leadsWith old (c :: cs) then new ++ (c :: cs).drop old.length
    else c :: replaceFirstAux old new cs

/-- Embedding of Python `s.replace(old, new, 1)`: the first occurrence of
`old` anywhere in `s` (not only as a leading run) is replaced by `new`. -/
def pyReplaceFirst (s old new : String) : String :=
  if old.data.isEmpty then ⟨new.data ++ s.data⟩
  else ⟨replaceFirstAux old.data new.data s.data⟩

/-- Python whitespace characters stripped by `str.strip()`. -/
def isPyWhite (c : Char) : Bool :=
  c == ' ' || c == '\t' || c == '\n' || c == '\r' || c == Char.ofNat 11 || c == Char.ofNat 12

/-- Embedding of Python `str.strip()` on character lists. -/
def pyStrip (l : List Char) : List Char :=
  ((l.dropWhile isPyWhite).reverse.dropWhile isPyWhite).reverse

/-- Prepend a character to the first part of a nonempty part list. -/
def consHead (c : Char) : List (List Char) → List (List Char)
  | [] => [[c]]
  | p :: ps => (c :: p) :: ps

/-- Embedding of `re.split(r' \- | \| ', text)` used by
`extract_homepage_alt_form`: scan left to right, splitting at each
non-overlapping occurrence of the three-character separators
space-dash-space or space-bar-space. -/
def sepSplit : List Char → List (List Char)
  | [] => [[]]
  | [c] => [[c]]
  | [c, d] => [[c, d]]
  | a :: b :: c :: rest =>
    if a == ' ' && (b == '-' || b == '|') && c == ' ' then
      [] :: sepSplit rest
    else
      consHead a (sepSplit (b :: c :: rest))

/-- Whether the text contains an occurrence of one of the two separators
space-dash-space or space-bar-space. -/
def containsSep : List Char → Bool
  | [] => false
  | [_] => false
  | [_, _] => false
  | a :: b :: c :: rest =>
    (a == ' ' && (b == '-' || b == '|') && c == ' ') || containsSep (b :: c :: rest)

/-- Model of the tabular input handled by the module: named columns of
string cells, in row order.  `data['Text Title']` is a keyed lookup that
raises `KeyError` when absent, modelled by `Option`. -/
structure DataFrame where
  cols : List (String × List String)

/-- Column lookup; `none` models the propagated `KeyError`. -/
def DataFrame.col? (df : DataFrame) (name : String) : Option (List String) :=
  (df.cols.find? (fun p => p.1 == name)).map Prod.snd

/-- Embedding of `extract_search_queries` (content_analysis.py lines 10-20):
`[s.replace("Searched for ", "", 1) for s in data['Text Title'] if
s.startswith("Searched")][:1000]`.  `none` models the `KeyError` raised on a
missing column. -/
def extract_search_queries (df : DataFrame) : Option (List String) :=
  (df.col? "Text Title").map fun col =>
    ((col.filter (fun s => pyStartsWith s "Searched")).map
      (fun s => pyReplaceFirst s "Searched for " "")).take 1000

/-- Embedding of `extract_visited_sites` (content_analysis.py lines 22-32):
`[s.replace("Visited ", "", 1) for s in data['Text Title'] if
s.startswith("Visited")][-100:]`.  The Python slice `[-100:]` keeps the last
100 elements, i.e. drops `length - 100` from the front. -/
def extract_visited_sites (df : DataFrame) : Option (List String) :=
  (df.col? "Text Title").map fun col =>
    let l := (col.filter (fun s => pyStartsWith s "Visited")).map
      (fun s => pyReplaceFirst s "Visited " "")
    l.drop (l.length - 100)

/-- Embedding of `is_url` (content_analysis.py lines 83-93):
`text.startswith(('http://', 'https://'))`. -/
def is_url (text : String) : Bool :=
  pyStartsWith text "http://" || pyStartsWith text "https://"

/-- Embedding of `extract_homepage_alt_form` (content_analysis.py lines 95-113):
split on the two separators, take the last part (`parts[-1]`, total here via
`getLastD` -- `sepSplit` never returns an empty list), strip it, and refuse
when the stripped part ends in three dots, is itself a URL, or the split
produced a single part.  `none` models the Python `None`. -/
def extract_homepage_alt_form (text : String) : Option String :=
  let parts := sepSplit text.data
  let result := pyStrip (parts.getLastD [])
  if trailsWith result ("...".data) || is_url ⟨result⟩ || parts.length == 1 then none
  else some ⟨result⟩

/-- Public-suffix data for the tldextract model below: a representative cut
of the public suffix list, as reversed-order-free label lists, including the
multi-part suffixes the spec singles out. -/
def publicSuffixList : List (List String) :=
  [["com"], ["org"], ["net"], ["edu"], ["gov"], ["io"], ["de"], ["fr"],
   ["uk"], ["co", "uk"], ["ac", "uk"], ["gov", "uk"], ["au"], ["com", "au"],
   ["jp"], ["co", "jp"]]

/-- Host portion of a URL for the tldextract model: drop the scheme when
present and keep characters up to the first slash, colon, question mark or
hash. -/
def hostOf (url : String) : String :=
  let rest :=
    if leadsWith ("https://".data) url.data then url.data.drop 8
    else if leadsWith ("http://".data) url.data then url.data.drop 7
    else url.data
  ⟨rest.takeWhile (fun c => !(c == '/' || c == ':' || c == '?' || c == '#'))⟩

/-- Split on the dot character. -/
def splitOnDot : List Char → List (List Char)
  | [] => [[]]
  | c :: rest => if c == '.' then [] :: splitOnDot rest else consHead c (splitOnDot rest)

/-- Join labels with dots. -/
def joinDots : List String → String
  | [] => ""
  | [x] => x
  | x :: y :: rest => x ++ "." ++ joinDots (y :: rest)

/-- Length (in labels) of the longest public suffix ending the host. -/
def bestSuffixLen (labels : List String) : Nat :=
  (List.range (labels.length + 1)).foldl
    (fun best k =>
      if publicSuffixList.contains (labels.drop (labels.length - k)) then k else best)
    0

/-- Result record of the tldextract model. -/
structure TldParts where
  subdomain : String
  domain : String
  suffix : String

/-- Modelled from the spec: the third-party `tldextract` library called by
`extract_homepage_from_url` is not part of src/.  Per the spec it performs a
public-suffix-aware extraction of (subdomain, domain, suffix) from the URL
host, matching the longest public suffix at the end of the host label list
(so multi-part suffixes such as co.uk are handled), with empty components
when the host is empty, is itself a suffix, or matches no suffix.  Userinfo
in the host is not modelled. -/
def tldextract_extract (url : String) : TldParts :=
  let labels := (splitOnDot (hostOf url).data).map (fun l => (⟨l⟩ : String))
  let k := bestSuffixLen labels
  let rest := labels.take (labels.length - k)
  { subdomain := joinDots (rest.take (rest.length - 1)),
    domain := rest.getLastD "",
    suffix := joinDots (labels.drop (labels.length - k)) }

/-- Embedding of `extract_homepage_from_url` (content_analysis.py lines
70-81): returns the f-string `"{extracted.domain}.{extracted.suffix}"` built
from the tldextract result.  The `urlparse` netloc and the `print` call do
not affect the returned value and are not modelled. -/
def extract_homepage_from_url (url : String) : String :=
  let extracted := tldextract_extract url
  extracted.domain ++ "." ++ extracted.suffix

/-- Embedding of `extract_homepage_main` (content_analysis.py lines 56-68):
dispatch on `is_url`. -/
def extract_homepage_main (url : String) : Option String :=
  if is_url url = false then extract_homepage_alt_form url
  else some (extract_homepage_from_url url)

/-- Model of Python `collections.Counter` built from a list: an association
list from distinct element to multiplicity, in first-occurrence order. -/
def tally {α : Type} [BEq α] (xs : List α) : List (α × Nat) :=
  xs.foldl
    (fun acc x =>
      if acc.any (fun p => p.1 == x) then
        acc.map (fun p => if p.1 == x then (p.1, p.2 + 1) else p)
      else acc ++ [(x, 1)])
    []

/-- `Counter(cleaned_tokens)` from content_analysis.py line 129. -/
def counterList (tokens : List String) : List (String × Nat) :=
  tally tokens

/-- Stable descending insertion by count. -/
def insertCountDesc {α : Type} (x : α × Nat) : List (α × Nat) → List (α × Nat)
  | [] => [x]
  | y :: ys => if y.2 < x.2 then x :: y :: ys else y :: insertCountDesc x ys

/-- Sort an association list by count, descending. -/
def sortByCountDesc {α : Type} (l : List (α × Nat)) : List (α × Nat) :=
  l.foldr insertCountDesc []

/-- Model of a pandas DataFrame value: column names plus rows of cells. -/
structure PdFrame where
  columns : List String
  rows : List (List String)

/-- Model of the third-party pandas constructor
`pd.DataFrame(mapping, columns=cols)` for a mapping whose values are all
scalars (here the Counter): when some requested column name is a key of the
mapping the nonmissing values are scalars and pandas raises
`ValueError: If using all scalar values, you must pass an index`; otherwise
every requested column is missing, the extracted index is empty, and the
result is a frame with the requested columns and zero rows. -/
def pdFrameOfScalarMapping (m : List (String × Nat)) (cols : List String) :
    Except String PdFrame :=
  if cols.any (fun c => m.any (fun p => p.1 == c)) then
    Except.error "ValueError: If using all scalar values, you must pass an index"
  else Except.ok { columns := cols, rows := [] }

/-- Model of a pandas Series as produced by `DataFrame.value_counts`: index
level names plus (row, count) entries. -/
structure PdSeries where
  indexNames : List String
  entries : List (List String × Nat)

/-- Model of the third-party pandas method `DataFrame.value_counts()`:
counts distinct rows, sorted by count descending; the index level names of
the resulting series are the columns of the frame. -/
def pdValueCounts (f : PdFrame) : PdSeries :=
  { indexNames := f.columns, entries := sortByCountDesc (tally f.rows) }

/-- Model of the third-party pandas method `Series.reset_index(name=n)`:
the index levels become columns and the values become a column named `n`;
when `n` is already one of the index level names the underlying column
insert raises `ValueError: cannot insert n, already exists`. -/
def pdResetIndex (s : PdSeries) (n : String) : Except String PdFrame :=
  if s.indexNames.contains n then
    Except.error ("ValueError: cannot insert " ++ n ++ ", already exists")
  else
    Except.ok
      { columns := s.indexNames ++ [n],
        rows := s.entries.map (fun e => e.1 ++ [toString e.2]) }

/-- Model of the third-party pandas method
`sort_values(by=col, ascending=False)`: sort rows by the numeric value of
the named column, descending (a frame without the column is returned
unchanged; in the embedded chain the column is always present). -/
def pdSortValuesDesc (f : PdFrame) (col : String) : PdFrame :=
  match f.columns.findIdx? (fun c => c == col) with
  | none => f
  | some i =>
    { columns := f.columns,
      rows := (sortByCountDesc
        (f.rows.map (fun r => (r, (String.toNat? (r.getD i "")).getD 0)))).map Prod.fst }

/-- The frequency-table step of `main` applied to a Counter: the embedding of
`pd.DataFrame(counted_tokens, columns=['token', 'frequency']).value_counts()
.reset_index(name='frequency')` followed by
`sort_values(by='frequency', ascending=False)` (content_analysis.py lines
130-131), under the pandas models above. -/
def pandasFreqStep (m : List (String × Nat)) : Except String PdFrame :=
  match pdFrameOfScalarMapping m ["token", "frequency"] with
  | Except.error e => Except.error e
  | Except.ok frame =>
    match pdResetIndex (pdValueCounts frame) "frequency" with
    | Except.error e => Except.error e
    | Except.ok tf => Except.ok (pdSortValuesDesc tf "frequency")

/-- Lines 129-131 of content_analysis.py as a function of the token list. -/
def token_frequency_expr (tokens : List String) : Except String PdFrame :=
  pandasFreqStep (counterList tokens)

/-- Render an optional homepage cell the way `to_csv` renders `None`. -/
def optStr : Option String → String
  | some s => s
  | none => ""

/-- Join cells with commas. -/
def joinCommas : List String → String
  | [] => ""
  | [x] => x
  | x :: y :: rest => x ++ "," ++ joinCommas (y :: rest)

/-- Rows of the visited/homepage table with the leading row-index column. -/
def visitedRows : Nat → List (String × Option String) → String
  | _, [] => ""
  | i, (v, h) :: rest =>
    toString i ++ "," ++ v ++ "," ++ optStr h ++ "\n" ++ visitedRows (i + 1) rest

/-- Byte content of `visited_homepages.csv` as written by `to_csv`. -/
def visitedCsv (vs : List String) (hs : List (Option String)) : String :=
  ",visited,homepage\n" ++ visitedRows 0 (vs.zip hs)

/-- Rows of a frame CSV with the leading row-index column. -/
def frameRows : Nat → List (List String) → String
  | _, [] => ""
  | i, r :: rest => toString i ++ "," ++ joinCommas r ++ "\n" ++ frameRows (i + 1) rest

/-- Byte content of a frame written by `to_csv`. -/
def frameCsv (f : PdFrame) : String :=
  "," ++ joinCommas f.columns ++ "\n" ++ frameRows 0 f.rows

/-- Observable outcome of one invocation of `main`: the files written (path
and byte content, in order) and the final result, with `Except.error`
modelling an uncaught Python exception. -/
structure MainRun where
  writes : List (String × String)
  result : Except String Unit

/-- Names bound in the scope of `main` before its final if/else: the module
imports and functions of content_analysis.py, the parameters of `main`, and
every local assigned in its body up to line 134. -/
def mainBoundNames : List String :=
  ["List", "Tuple", "Dict", "Any", "Counter", "re", "urlparse", "pd",
   "spacy", "tldextract", "np",
   "extract_search_queries", "extract_visited_sites", "process_texts",
   "extract_homepage_main", "extract_homepage_from_url", "is_url",
   "extract_homepage_alt_form", "main",
   "arr_data", "mappings", "nlp", "text_index", "date_index", "search",
   "text_array", "date_array", "table", "search_queries", "visited_sites",
   "homepages", "cleaned_tokens", "counted_tokens", "token_frequency",
   "visited_data"]

/-- Free names evaluated by the final if/else of `main` (lines 137-145) for
each value of `search`; names first assigned inside the branch
(`short_flags`, `imputed_arr`, `metadata`) are not free. -/
def finalBranchRefs (search : Bool) : List String :=
  if search then
    ["arr_data", "differences", "windows", "window_durations",
     "window_counts", "counts_over_duration"]
  else
    ["flag_short_videos", "differences", "arr_data", "windows",
     "window_durations", "window_counts", "counts_over_duration"]

/-- Embedding of `main` (content_analysis.py lines 115-145) as a function of
its inputs: `tok` stands for the spacy `process_texts` tokenizer and
`freqStep` for the pandas frequency-table step at lines 130-131 (both
third-party library behaviour); `search` is `mappings[0] == 'Text Title'`;
`cache` is the table read from `dash_ready_search_data.csv`.  The body
follows the source statement order: extraction (KeyError when the column is
missing), homepages, tokenization, the frequency-table step (aborting with
its error), the two `to_csv` writes, then the final if/else whose first
lookup of an undefined name (`differences` when `search`, otherwise
`flag_short_videos`) raises a NameError. -/
def main_model (tok : List String → List String)
    (freqStep : List (String × Nat) → Except String PdFrame)
    (search : Bool) (cache : DataFrame) : MainRun :=
  match extract_search_queries cache, extract_visited_sites cache with
  | some qs, some vs =>
    let homepages := vs.map extract_homepage_main
    let tokens := tok qs
    match freqStep (counterList tokens) with
    | Except.error e => { writes := [], result := Except.error e }
    | Except.ok tf =>
      { writes :=
          [("personal_data/output/visited_homepages.csv", visitedCsv vs homepages),
           ("personal_data/output/search_token_frequency.csv", frameCsv tf)],
        result := Except.error
          (if search then "NameError: differences is not defined"
           else "NameError: flag_short_videos is not defined") }
  | _, _ => { writes := [], result := Except.error "KeyError: Text Title" }

/-- The query extractor as the spec sentence for it reads, for comparison
with the embedded `extract_search_queries`: keep exactly the entries whose
title starts with the literal "Searched for ", strip that prefix from the
front, keep the first 1000 in original order. -/
def specSearchQueries (col : List String) : List String :=
  ((col.filter (fun s => pyStartsWith s "Searched for ")).map
    (fun s => (⟨s.data.drop ("Searched for ".data.length)⟩ : String))).take 1000

/-- The visited-site extractor as the spec sentence for it reads, for
comparison with the embedded `extract_visited_sites`: keep exactly the
entries whose title starts with the literal "Visited ", strip that prefix
from the front, keep the last 100 in original order. -/
def specVisitedSites (col : List String) : List String :=
  let l := (col.filter (fun s => pyStartsWith s "Visited ")).map
    (fun s => (⟨s.data.drop ("Visited ".data.length)⟩ : String))
  l.drop (l.length - 100)

/-- The non-URL homepage heuristic as the spec sentence for it reads, for
comparison with the embedded `extract_homepage_alt_form`: split on the two
separators, take the last segment, trim whitespace; absence when the
original string had no separator at all, or the segment starts with a web
protocol, or it ends with three dots; otherwise the trimmed segment. -/
def specHomepageHeuristic (s : String) : Option String :=
  let result := pyStrip ((sepSplit s.data).getLastD [])
  if containsSep s.data = false then none
  else if is_url ⟨result⟩ || trailsWith result ("...".data) then none
  else some ⟨result⟩

/-- A frequency-table step that succeeds, standing for a corrected pandas
call: the Counter items as rows, sorted by count descending. -/
def okFreqStep (m : List (String × Nat)) : Except String PdFrame :=
  Except.ok
    { columns := ["token", "frequency"],
      rows := (sortByCountDesc m).map (fun p => [p.1, toString p.2]) }

/-- Input table whose titles exercise the divergence of
`extract_search_queries` from the spec wording. -/
def dfSearchCex : DataFrame :=
  ⟨[("Text Title", ["SearchedX", "Searched for Searched for y"])]⟩

/-- Small well-behaved input table for the query extractor. -/
def dfSearchW : DataFrame := ⟨[("Text Title", ["Searched for cats"])]⟩

/-- Input table whose titles exercise the divergence of
`extract_visited_sites` from the spec wording. -/
def dfVisitCex : DataFrame :=
  ⟨[("Text Title", ["VisitedX", "Visited example.com"])]⟩

/-- Small well-behaved input table for the visited-site extractor. -/
def dfVisitW : DataFrame := ⟨[("Text Title", ["Visited example.com"])]⟩

/-- Input table without the "Text Title" column. -/
def dfNoTitle : DataFrame := ⟨[("Other", ["x"])]⟩

/-- Ordinary input table used to run the embedded `main`. -/
def dfCrash : DataFrame :=
  ⟨[("Text Title", ["Searched for cats", "Visited Site - Foo"])]⟩

/-- Ordinary input table used to run the embedded `main` with a corrected
frequency step. -/
def dfRunW : DataFrame :=
  ⟨[("Text Title", ["Searched for lean proofs",
                    "Visited https://www.example.co.uk/page"])]⟩

theorem consHead_ne_nil (c : Char) (l : List (List Char)) : consHead c l ≠ [] := by
  cases l <;> simp [consHead]

theorem length_consHead (c : Char) (l : List (List Char)) (h : l ≠ []) :
    (consHead c l).length = l.length := by
  cases l with
  | nil => exact absurd rfl h
  | cons p ps => simp [consHead]

theorem sepSplit_ne_nil : ∀ l : List Char, sepSplit l ≠ []
  | [] => by simp [sepSplit]
  | [c] => by simp [sepSplit]
  | [c, d] => by simp [sepSplit]
  | a :: b :: c :: rest => by
    cases hcond : (a == ' ' && (b == '-' || b == '|') && c == ' ') with
    | true => simp [sepSplit, hcond]
    | false =>
      have hne := consHead_ne_nil a (sepSplit (b :: c :: rest))
      simpa [sepSplit, hcond] using hne

theorem sepSplit_of_not_contains :
    ∀ l : List Char, containsSep l = false → sepSplit l = [l]
  | [], _ => rfl
  | [c], _ => rfl
  | [c, d], _ => rfl
  | a :: b :: c :: rest, h => by
    have h1 : (a == ' ' && (b == '-' || b == '|') && c == ' ') = false := by
      cases hcond : (a == ' ' && (b == '-' || b == '|') && c == ' ') with
      | true => simp [containsSep, hcond] at h
      | false => rfl
    have h2 : containsSep (b :: c :: rest) = false := by
      cases hc2 : containsSep (b :: c :: rest) with
      | true => simp [containsSep, hc2] at h
      | false => rfl
    have hrw : sepSplit (a :: b :: c :: rest) = consHead a (sepSplit (b :: c :: rest)) := by
      simp [sepSplit, h1]
    rw [hrw, sepSplit_of_not_contains (b :: c :: rest) h2]
    rfl

theorem two_le_sepSplit_of_contains :
    ∀ l : List Char, containsSep l = true → 2 ≤ (sepSplit l).length
  | [], h => by simp [containsSep] at h
  | [c], h => by simp [containsSep] at h
  | [c, d], h => by simp [containsSep] at h
  | a :: b :: c :: rest, h => by
    cases hcond : (a == ' ' && (b == '-' || b == '|') && c == ' ') with
    | true =>
      have hne := sepSplit_ne_nil rest
      have hpos : 0 < (sepSplit rest).length := List.length_pos.mpr hne
      simp [sepSplit, hcond]
      omega
    | false =>
      have h2 : containsSep (b :: c :: rest) = true := by
        have h3 := h
        simp [containsSep, hcond] at h3
        exact h3
      have ih := two_le_sepSplit_of_contains (b :: c :: rest) h2
      have hne := sepSplit_ne_nil (b :: c :: rest)
      have hrw : sepSplit (a :: b :: c :: rest) = consHead a (sepSplit (b :: c :: rest)) := by
        simp [sepSplit, hcond]
      rw [hrw, length_consHead a _ hne]
      exact ih

theorem pyStrip_eq_nil_of_all_white (l : List Char)
    (h : ∀ c ∈ l, isPyWhite c = true) : pyStrip l = [] := by
  have h1 : l.dropWhile isPyWhite = [] := List.dropWhile_eq_nil_iff.mpr h
  rw [pyStrip, h1]
  rfl

theorem pandasFreqStep_errors (m : List (String × Nat)) :
    ∃ e, pandasFreqStep m = Except.error e := by
  unfold pandasFreqStep pdFrameOfScalarMapping
  cases hcond : (["token", "frequency"].any (fun c => m.any (fun p => p.1 == c))) with
  | true => exact ⟨_, rfl⟩
  | false => exact ⟨_, rfl⟩

/-- C1, counterexample: on the column ["SearchedX", "Searched for Searched
for y"] the code returns ["SearchedX", "Searched for y"] while the claimed
behaviour (exactly the titles with the literal leading "Searched for ",
prefix stripped) yields ["Searched for y"]; moreover the second returned
string still starts with "Searched for ", contradicting the claim that no
returned string does. -/
theorem C1_counterexample :
    extract_search_queries dfSearchCex = some ["SearchedX", "Searched for y"] ∧
    specSearchQueries ["SearchedX", "Searched for Searched for y"] = ["Searched for y"] ∧
    ["SearchedX", "Searched for y"] ≠ ["Searched for y"] ∧
    pyStartsWith "Searched for y" "Searched for " = true := by
  refine ⟨rfl, rfl, ?_, rfl⟩
  decide

/-- C1, amended: for every input dataframe with a "Text Title" column,
`extract_search_queries` returns exactly the entries whose title starts with
"Searched" (not only "Searched for "), each with the first occurrence of the
substring "Searched for " anywhere in it removed (not a prefix strip),
keeping the first 1000 matches in original order; consequently the result
has length at most 1000, stays in column order, and each returned string
comes from a qualifying entry -- but it may still start with
"Searched for ". -/
theorem C1_search_queries_exact (df : DataFrame) (col : List String)
    (h : df.col? "Text Title" = some col) :
    extract_search_queries df =
      some (((col.filter (fun s => pyStartsWith s "Searched")).map
        (fun s => pyReplaceFirst s "Searched for " "")).take 1000) ∧
    (((col.filter (fun s => pyStartsWith s "Searched")).map
      (fun s => pyReplaceFirst s "Searched for " "")).take 1000).length ≤ 1000 ∧
    (((col.filter (fun s => pyStartsWith s "Searched")).map
      (fun s => pyReplaceFirst s "Searched for " "")).take 1000).Sublist
      (col.map (fun s => pyReplaceFirst s "Searched for " "")) ∧
    ∀ q ∈ ((col.filter (fun s => pyStartsWith s "Searched")).map
      (fun s => pyReplaceFirst s "Searched for " "")).take 1000,
      ∃ t ∈ col, pyStartsWith t "Searched" = true ∧
        q = pyReplaceFirst t "Searched for " "" := by
  refine ⟨?_, ?_, ?_, ?_⟩
  · simp [extract_search_queries, h]
  · exact List.length_take_le _ _
  · exact (List.take_sublist _ _).trans ((List.filter_sublist col).map _)
  · intro q hq
    obtain ⟨t, ht, rfl⟩ := List.mem_map.mp (List.take_subset _ _ hq)
    exact ⟨t, (List.mem_filter.mp ht).1, (List.mem_filter.mp ht).2, rfl⟩

/-- C1, witness: the amended statement applied to a concrete table, together
with the evaluated result of the extractor there. -/
theorem C1_witness :
    dfSearchW.col? "Text Title" = some ["Searched for cats"] ∧
    (extract_search_queries dfSearchW =
      some (((["Searched for cats"].filter (fun s => pyStartsWith s "Searched")).map
        (fun s => pyReplaceFirst s "Searched for " "")).take 1000) ∧
     (((["Searched for cats"].filter (fun s => pyStartsWith s "Searched")).map
       (fun s => pyReplaceFirst s "Searched for " "")).take 1000).length ≤ 1000 ∧
     (((["Searched for cats"].filter (fun s => pyStartsWith s "Searched")).map
       (fun s => pyReplaceFirst s "Searched for " "")).take 1000).Sublist
       (["Searched for cats"].map (fun s => pyReplaceFirst s "Searched for " "")) ∧
     ∀ q ∈ ((["Searched for cats"].filter (fun s => pyStartsWith s "Searched")).map
       (fun s => pyReplaceFirst s "Searched for " "")).take 1000,
       ∃ t ∈ ["Searched for cats"], pyStartsWith t "Searched" = true ∧
         q = pyReplaceFirst t "Searched for " "") ∧
    extract_search_queries dfSearchW = some ["cats"] :=
  ⟨rfl, C1_search_queries_exact dfSearchW ["Searched for cats"] rfl, rfl⟩

/-- C2, counterexample: on the column ["VisitedX", "Visited example.com"]
the code returns ["VisitedX", "example.com"] while the claimed behaviour
(exactly the titles with the literal leading "Visited ", prefix stripped)
yields ["example.com"]. -/
theorem C2_counterexample :
    extract_visited_sites dfVisitCex = some ["VisitedX", "example.com"] ∧
    specVisitedSites ["VisitedX", "Visited example.com"] = ["example.com"] ∧
    ["VisitedX", "example.com"] ≠ ["example.com"] := by
  refine ⟨rfl, rfl, ?_⟩
  decide

/-- C2, amended: for every input dataframe with a "Text Title" column,
`extract_visited_sites` returns exactly the last 100 (in original order)
entries whose title starts with "Visited" (not only "Visited "), each with
the first occurrence of the substring "Visited " anywhere in it removed:
the result equals the transformed qualifying column with all but its last
100 elements dropped, so it has length at most 100, stays in column order,
and each returned string comes from a qualifying entry. -/
theorem C2_visited_sites_exact (df : DataFrame) (col : List String)
    (h : df.col? "Text Title" = some col) :
    extract_visited_sites df =
      some (((col.filter (fun s => pyStartsWith s "Visited")).map
        (fun s => pyReplaceFirst s "Visited " "")).drop
        ((((col.filter (fun s => pyStartsWith s "Visited")).map
          (fun s => pyReplaceFirst s "Visited " "")).length) - 100)) ∧
    ((((col.filter (fun s => pyStartsWith s "Visited")).map
      (fun s => pyReplaceFirst s "Visited " "")).drop
      ((((col.filter (fun s => pyStartsWith s "Visited")).map
        (fun s => pyReplaceFirst s "Visited " "")).length) - 100)).length ≤ 100) ∧
    (((col.filter (fun s => pyStartsWith s "Visited")).map
      (fun s => pyReplaceFirst s "Visited " "")).drop
      ((((col.filter (fun s => pyStartsWith s "Visited")).map
        (fun s => pyReplaceFirst s "Visited " "")).length) - 100)).Sublist
      (col.map (fun s => pyReplaceFirst s "Visited " "")) ∧
    ∀ q ∈ ((col.filter (fun s => pyStartsWith s "Visited")).map
      (fun s => pyReplaceFirst s "Visited " "")).drop
      ((((col.filter (fun s => pyStartsWith s "Visited")).map
        (fun s => pyReplaceFirst s "Visited " "")).length) - 100),
      ∃ t ∈ col, pyStartsWith t "Visited" = true ∧
        q = pyReplaceFirst t "Visited " "" := by
  refine ⟨?_, ?_, ?_, ?_⟩
  · simp [extract_visited_sites, h]
  · simp only [List.length_drop]
    omega
  · exact (List.drop_sublist _ _).trans ((List.filter_sublist col).map _)
  · intro q hq
    obtain ⟨t, ht, rfl⟩ := List.mem_map.mp (List.drop_subset _ _ hq)
    exact ⟨t, (List.mem_filter.mp ht).1, (List.mem_filter.mp ht).2, rfl⟩

/-- C2, witness: the amended statement applied to a concrete table, together
with the evaluated result of the extractor there. -/
theorem C2_witness :
    dfVisitW.col? "Text Title" = some ["Visited example.com"] ∧
    (extract_visited_sites dfVisitW =
      some (((["Visited example.com"].filter (fun s => pyStartsWith s "Visited")).map
        (fun s => pyReplaceFirst s "Visited " "")).drop
        ((((["Visited example.com"].filter (fun s => pyStartsWith s "Visited")).map
          (fun s => pyReplaceFirst s "Visited " "")).length) - 100)) ∧
     ((((["Visited example.com"].filter (fun s => pyStartsWith s "Visited")).map
       (fun s => pyReplaceFirst s "Visited " "")).drop
       ((((["Visited example.com"].filter (fun s => pyStartsWith s "Visited")).map
         (fun s => pyReplaceFirst s "Visited " "")).length) - 100)).length ≤ 100) ∧
     (((["Visited example.com"].filter (fun s => pyStartsWith s "Visited")).map
       (fun s => pyReplaceFirst s "Visited " "")).drop
       ((((["Visited example.com"].filter (fun s => pyStartsWith s "Visited")).map
         (fun s => pyReplaceFirst s "Visited " "")).length) - 100)).Sublist
       (["Visited example.com"].map (fun s => pyReplaceFirst s "Visited " "")) ∧
     ∀ q ∈ ((["Visited example.com"].filter (fun s => pyStartsWith s "Visited")).map
       (fun s => pyReplaceFirst s "Visited " "")).drop
       ((((["Visited example.com"].filter (fun s => pyStartsWith s "Visited")).map
         (fun s => pyReplaceFirst s "Visited " "")).length) - 100),
       ∃ t ∈ ["Visited example.com"], pyStartsWith t "Visited" = true ∧
         q = pyReplaceFirst t "Visited " "") ∧
    extract_visited_sites dfVisitW = some ["example.com"] :=
  ⟨rfl, C2_visited_sites_exact dfVisitW ["Visited example.com"] rfl, rfl⟩

/-- C3: for every input string that is classified as a URL (it starts with
"http://" or "https://"), `extract_homepage_main` returns the registrable
domain "{domain}.{suffix}" computed by the public-suffix-aware extraction
model; in particular (see the witness) the multi-part suffix co.uk is
handled: "https://www.example.co.uk/page" yields "example.co.uk". -/
theorem C3_registrable_domain (url : String) (h : is_url url = true) :
    extract_homepage_main url =
      some ((tldextract_extract url).domain ++ "." ++ (tldextract_extract url).suffix) := by
  rw [extract_homepage_main, if_neg]
  · rfl
  · simp [h]

/-- C3, witness: the co.uk example from the spec. -/
theorem C3_witness :
    is_url "https://www.example.co.uk/page" = true ∧
    extract_homepage_main "https://www.example.co.uk/page" = some "example.co.uk" :=
  ⟨rfl, (C3_registrable_domain "https://www.example.co.uk/page" rfl).trans rfl⟩

/-- C4: for every input string not classified as a URL,
`extract_homepage_main` behaves exactly as the spec sentence describes:
split on the literal separators space-dash-space and space-bar-space, take
the last segment, trim whitespace; absence when the string contained no such
separator (in particular the empty string), or the trimmed segment itself
starts with a web protocol, or it ends with the literal three dots;
otherwise the trimmed segment. -/
theorem C4_alt_form (s : String) (h : is_url s = false) :
    extract_homepage_main s = specHomepageHeuristic s := by
  rw [extract_homepage_main, if_pos h]
  cases hc : containsSep s.data with
  | false =>
    have hs := sepSplit_of_not_contains s.data hc
    simp [extract_homepage_alt_form, specHomepageHeuristic, hs, hc]
  | true =>
    have h2 := two_le_sepSplit_of_contains s.data hc
    have hlen : ((sepSplit s.data).length == 1) = false := by
      rw [beq_eq_false_iff_ne]
      omega
    simp only [extract_homepage_alt_form, specHomepageHeuristic, hc, hlen]
    simp
    exact if_congr or_comm rfl rfl

/-- C4, witness: the spec examples -- a title with a separator yields its
trimmed last segment, while a truncated title, a single-segment title and
the empty string all yield absence. -/
theorem C4_witness :
    is_url "My Great Article - Example News" = false ∧
    extract_homepage_main "My Great Article - Example News" = some "Example News" ∧
    extract_homepage_main "Some Truncated Title..." = none ∧
    extract_homepage_main "SingleSegmentNoDelimiter" = none ∧
    extract_homepage_main "" = none :=
  ⟨rfl,
   (C4_alt_form "My Great Article - Example News" rfl).trans rfl,
   (C4_alt_form "Some Truncated Title..." rfl).trans rfl,
   (C4_alt_form "SingleSegmentNoDelimiter" rfl).trans rfl,
   (C4_alt_form "" rfl).trans rfl⟩

/-- C9: for every input string classified as a URL, `extract_homepage_main`
returns a string (never the absence signal); degenerate hosts only shrink
the returned "{domain}.{suffix}" to a string with a leading or trailing dot,
as the witness shows for the bare "http://", which yields ".". -/
theorem C9_url_branch_total (url : String) (h : is_url url = true) :
    (extract_homepage_main url).isSome = true := by
  rw [extract_homepage_main, if_neg]
  · rfl
  · simp [h]

/-- C9, witness: the bare scheme string. -/
theorem C9_witness :
    is_url "http://" = true ∧
    (extract_homepage_main "http://").isSome = true ∧
    extract_homepage_main "http://" = some "." :=
  ⟨rfl, C9_url_branch_total "http://" rfl, rfl⟩

/-- C10: for every non-URL string that does contain one of the separators
and whose last segment is empty or whitespace-only, `extract_homepage_main`
returns the empty string, not the absence signal. -/
theorem C10_blank_last_segment (s : String) (h1 : is_url s = false)
    (h2 : containsSep s.data = true)
    (h3 : ∀ c ∈ (sepSplit s.data).getLastD [], isPyWhite c = true) :
    extract_homepage_main s = some "" := by
  rw [extract_homepage_main, if_pos h1]
  have hr : pyStrip ((sepSplit s.data).getLastD []) = [] :=
    pyStrip_eq_nil_of_all_white _ h3
  have h2le := two_le_sepSplit_of_contains s.data h2
  have hlen : ((sepSplit s.data).length == 1) = false := by
    rw [beq_eq_false_iff_ne]
    omega
  simp only [extract_homepage_alt_form, hr, hlen]
  decide

/-- C10, witness: a title whose last segment after the separator is empty. -/
theorem C10_witness :
    is_url "Some Title - " = false ∧
    containsSep (String.data "Some Title - ") = true ∧
    extract_homepage_main "Some Title - " = some "" :=
  ⟨rfl, rfl, C10_blank_last_segment "Some Title - " rfl rfl (by decide)⟩

/-- C5: evaluating the frequency-table expression of `main` (lines 129-131)
at a concrete token list: under the pandas model, the Counter keys are not
among the requested columns, so the constructed frame has zero rows with
columns token and frequency, `value_counts` therefore carries those two
names as index levels, and `reset_index(name='frequency')` raises because
the column frequency already exists.  No frequency table is ever produced,
so the claimed sum and sortedness invariants are about a table the code
never builds. -/
theorem C5_frequency_step_raises :
    token_frequency_expr ["hello", "hello", "world"] =
      Except.error "ValueError: cannot insert frequency, already exists" := rfl

/-- C6, counterexample: running the embedded `main` on a concrete input, the
run writes no file at all and aborts with a ValueError from the
frequency-table expression, not with a name-lookup error after the two CSV
writes as the claim states. -/
theorem C6_counterexample :
    (main_model (fun l => l) pandasFreqStep true dfCrash).writes = [] ∧
    (main_model (fun l => l) pandasFreqStep true dfCrash).result =
      Except.error "ValueError: cannot insert frequency, already exists" ∧
    pyStartsWith "ValueError: cannot insert frequency, already exists" "NameError" = false :=
  ⟨rfl, rfl, rfl⟩

/-- C6, amended: every invocation of `main` (any tokenizer behaviour, any
cached table, either branch flag) aborts with an uncaught error before
writing any output file, because the frequency-table expression itself
raises; independently, the final if/else of `main` does reference the
undefined name `differences` in both branches, which is bound nowhere in
scope, so any execution that reached it would raise a name-lookup error. -/
theorem C6_main_always_aborts (tok : List String → List String)
    (search : Bool) (cache : DataFrame) :
    ((main_model tok pandasFreqStep search cache).writes = [] ∧
      ∃ e, (main_model tok pandasFreqStep search cache).result = Except.error e) ∧
    ("differences" ∈ finalBranchRefs search ∧
      mainBoundNames.contains "differences" = false) := by
  constructor
  · unfold main_model
    cases hq : extract_search_queries cache with
    | none => exact ⟨rfl, _, rfl⟩
    | some qs =>
      cases hv : extract_visited_sites cache with
      | none => exact ⟨rfl, _, rfl⟩
      | some vs =>
        obtain ⟨e, he⟩ := pandasFreqStep_errors (counterList (tok qs))
        simp only [he]
        exact ⟨trivial, e, rfl⟩
  · cases search <;> exact ⟨by decide, by decide⟩

/-- C6, supporting witness: the amended statement applied to a concrete
input. -/
theorem C6_witness :
    ((main_model (fun l => l) pandasFreqStep false dfRunW).writes = [] ∧
      ∃ e, (main_model (fun l => l) pandasFreqStep false dfRunW).result =
        Except.error e) ∧
    ("differences" ∈ finalBranchRefs false ∧
      mainBoundNames.contains "differences" = false) :=
  C6_main_always_aborts (fun l => l) false dfRunW

/-- C7: when the input dataframe has no "Text Title" column, both extractors
propagate the lookup failure (modelled by `none`) instead of returning any
list (in particular not an empty one). -/
theorem C7_missing_column (df : DataFrame) (h : df.col? "Text Title" = none) :
    extract_search_queries df = none ∧ extract_visited_sites df = none := by
  rw [extract_search_queries, extract_visited_sites, h]
  exact ⟨rfl, rfl⟩

/-- C7, witness: a table with only an unrelated column. -/
theorem C7_witness :
    dfNoTitle.col? "Text Title" = none ∧
    extract_search_queries dfNoTitle = none ∧
    extract_visited_sites dfNoTitle = none :=
  ⟨rfl, (C7_missing_column dfNoTitle rfl).1, (C7_missing_column dfNoTitle rfl).2⟩

/-- C8: the embedded pipeline is a deterministic function of its inputs --
for any fixed tokenizer behaviour and frequency-table step, two runs on
equal cached tables perform identical writes (identical file names and byte
contents, in the same order) and end with the identical result. -/
theorem C8_pipeline_deterministic (tok : List String → List String)
    (freqStep : List (String × Nat) → Except String PdFrame)
    (search : Bool) (c1 c2 : DataFrame) (h : c1 = c2) :
    main_model tok freqStep search c1 = main_model tok freqStep search c2 := by
  rw [h]

/-- C8, witness: two runs on the same concrete table with a succeeding
frequency step are equal, and their common writes are these concrete bytes
for the two output tables. -/
theorem C8_witness :
    main_model (fun l => l) okFreqStep true dfRunW =
      main_model (fun l => l) okFreqStep true dfRunW ∧
    (main_model (fun l => l) okFreqStep true dfRunW).writes =
      [("personal_data/output/visited_homepages.csv",
        ",visited,homepage\n0,https://www.example.co.uk/page,example.co.uk\n"),
       ("personal_data/output/search_token_frequency.csv",
        ",token,frequency\n0,lean proofs,1\n")] :=
  ⟨C8_pipeline_deterministic (fun l => l) okFreqStep true dfRunW dfRunW rfl, rfl⟩
